import Mathlib

set_option autoImplicit false

/-!
Shallow embedding of the Session Lifecycle & Reply-Aggregation Engine of the
Backend-Server repository.

The embedded code consists of:
* `src/utils/timer.js` (`Timer.start` / `Timer.stop`):  an armed timer is a
  `TimerRec` in `SystemState.armedTimers`; `start` appends one, `stop` removes
  the record with the timer's id (a no-op when it is absent, matching the
  idempotent `clearTimeout` guard).
* `src/services/wechatyService.js` (`mapGroupToSession`, `getSessionFromGroup`,
  `registerMessageHandler`, `unregisterMessageHandler`): the service's own
  `groupToSessionMap` and `messageHandlers` live in `SystemState` as
  `serviceGroupToSessionMap` and `serviceMessageHandlers`.  The service's
  inbound `handleMessage` resolves replies through `getSessionFromGroup`,
  i.e. through `serviceGroupToSessionMap`.
* `src/controllers/sessionController.js` (`createSession`, `handleReply`,
  `handleTimeout`, `completeSession`, `cleanupSession`, `getSession`,
  `getSessionFromGroup`, `isSessionActive`, `formatRepliesSimple`).
* `src/services/logger.js` (`getRepliesFromLogs`): the filesystem read and the
  JSON parse are abstracted into the `readLog` input; an exception raised while
  reading/parsing is the `.error` case, which the source's `try/catch` turns
  into `[]`.
* `src/routes/whatsapp.js` (`waitForSessionCompletion`): one tick of the
  1-second poll interval is `pollTick`, and the 650000 ms safety-net
  `setTimeout` body is `safetyNetFire`.

JavaScript `Map`s become association lists with last-writer-wins insertion;
`Date.now()` becomes an explicit `now : Nat` argument; the optional LLM service
(`this.llmService`) becomes an `Option LlmService` argument whose call either
returns a string or throws (`Except String String`); calls to `logger.warn`
made by the embedded functions are recorded in `SystemState.warnings`
(`logger.info`/`logger.error` calls and the log *contents* are not modelled).
Fields a session record only acquires at completion time (`endTime`,
`duration`, `isTimeout`, `summary`, `finalReplies`) are `Option`s, `none`
standing for the JavaScript `undefined`.
-/

namespace BackendServer

/-- First-match lookup in an association list, the JS `Map.get` (with
`undefined` as `none`). -/
def lookupA {β : Type} : List (String × β) → String → Option β
  | [], _ => none
  | p :: rest, k => if p.1 = k then some p.2 else lookupA rest k

/-- Remove every binding of key `k`, the JS `Map.delete`. -/
def eraseA {β : Type} : List (String × β) → String → List (String × β)
  | [], _ => []
  | p :: rest, k => if p.1 = k then eraseA rest k else p :: eraseA rest k

/-- Overwriting insertion, the JS `Map.set`: the new binding shadows and
removes any previous binding of the key. -/
def insertA {β : Type} (m : List (String × β)) (k : String) (v : β) :
    List (String × β) :=
  (k, v) :: eraseA m k

theorem lookupA_eraseA_self {β : Type} (m : List (String × β)) (k : String) :
    lookupA (eraseA m k) k = none := by
  induction m with
  | nil => rfl
  | cons p rest ih =>
    simp only [eraseA]
    by_cases hp : p.1 = k
    · rw [if_pos hp]
      exact ih
    · rw [if_neg hp]
      simp only [lookupA]
      rw [if_neg hp]
      exact ih

theorem lookupA_eraseA_ne {β : Type} (m : List (String × β)) (k k' : String)
    (h : k' ≠ k) : lookupA (eraseA m k) k' = lookupA m k' := by
  induction m with
  | nil => rfl
  | cons p rest ih =>
    simp only [eraseA, lookupA]
    by_cases hp : p.1 = k
    · rw [if_pos hp, ih, if_neg (fun hk : p.1 = k' => h (hk.symm.trans hp))]
    · rw [if_neg hp]
      simp only [lookupA]
      by_cases hp' : p.1 = k'
      · rw [if_pos hp', if_pos hp']
      · rw [if_neg hp', if_neg hp', ih]

@[simp] theorem lookupA_insertA_self {β : Type} (m : List (String × β))
    (k : String) (v : β) : lookupA (insertA m k v) k = some v := by
  simp [insertA, lookupA]

theorem lookupA_insertA_ne {β : Type} (m : List (String × β)) (k k' : String)
    (v : β) (h : k' ≠ k) : lookupA (insertA m k v) k' = lookupA m k' := by
  simp only [insertA, lookupA]
  rw [if_neg (fun hk : k = k' => h hk.symm), lookupA_eraseA_ne m k k' h]

/-- `src/config/wechatyConfig.js`: the effect-bearing configuration constants
(the env-derived puppet/name strings are irrelevant to the engine). -/
structure WechatyConfig where
  sessionTimeout : Nat
  replyThreshold : Nat
  maxWaitTime : Nat
deriving DecidableEq

/-- The exported config object: `sessionTimeout: 600000`, `replyThreshold: 3`,
`maxWaitTime: 600000`. -/
def wechatyConfig : WechatyConfig :=
  { sessionTimeout := 600000, replyThreshold := 3, maxWaitTime := 600000 }

/-- One entry of `routingResult.supplierGroups`. -/
structure SupplierGroup where
  wechatGroupId : String
  groupName : String := ""
deriving DecidableEq

/-- A normalized reply `{groupId, from, text, timestamp}` as built by
`wechatyService.handleMessage` (the spec calls the `from` property
`senderName`).  `fromName` is an `Option` because the JS property may be
absent; `formatRepliesSimple` treats both `undefined` and `""` as falsy. -/
structure Reply where
  groupId : String := ""
  fromName : Option String := none
  text : String := ""
  timestamp : Nat := 0
deriving DecidableEq

/-- The category router's output consumed by `createSession`. -/
structure RoutingResult where
  success : Bool := true
  category : String := ""
  supplierGroups : List SupplierGroup := []
deriving DecidableEq

inductive SessionStatus
  | active
  | completed
deriving DecidableEq

/-- The session record built by `createSession` and mutated by
`completeSession`.  `timerId` models `sessionData.timer` (the id of the armed
`TimerRec`). -/
structure Session where
  sessionId : String
  category : String
  supplierGroups : List SupplierGroup
  originalMessage : String
  replies : List Reply
  repliesReceived : Nat
  startTime : Nat
  status : SessionStatus
  timerId : Option Nat
  endTime : Option Nat := none
  duration : Option Int := none
  isTimeout : Option Bool := none
  summary : Option String := none
  finalReplies : Option (List Reply) := none
deriving DecidableEq

/-- An armed `setTimeout` created through `Timer.start`: it will fire at
`fireAt` and run `handleTimeout targetSessionId`. -/
structure TimerRec where
  fireAt : Nat
  targetSessionId : String
  id : Nat
deriving DecidableEq

/-- The mutable state of the process: the controller singleton's two maps, the
wechaty service singleton's map and handler registry, the armed timers and the
scheduled deferred cleanups of the event loop, and the trace of `logger.warn`
calls made by the embedded functions. -/
structure SystemState where
  sessions : List (String × Session) := []
  groupToSessionMap : List (String × String) := []
  serviceGroupToSessionMap : List (String × String) := []
  serviceMessageHandlers : List String := []
  armedTimers : List TimerRec := []
  nextTimerId : Nat := 0
  pendingCleanups : List (Nat × String) := []
  warnings : List String := []
deriving DecidableEq

/-- A parsed entry of `logs/combined.log` as inspected by
`getRepliesFromLogs` (entries are typed records here, so only the fields the
loop reads are kept). -/
structure LogEntry where
  message : String
  sessionId : String
  groupId : String := ""
  fromName : Option String := none
  text : String := ""
  timestamp : Nat := 0
deriving DecidableEq

/-- The optional LLM collaborator: `summarizeReplies`, which either returns a
summary or throws. -/
abbrev LlmService := List Reply → Except String String

/-- The JS `x || dflt` idiom on a possibly-absent string: both `undefined`
and `""` select the default. -/
def jsOrStr (v : Option String) (dflt : String) : String :=
  match v with
  | none => dflt
  | some s => if s = "" then dflt else s

/-- `src/services/logger.js`, `getRepliesFromLogs` (part_001 lines 540-607).
The `fs` read and JSON parse are the `readLog` input; the outer `try/catch`
returns `[]` when they throw (`.error`).  The scan pushes a reply for each
entry whose `message` is `'WeChat reply received'` or `'[WECHATY INCOMING]'`
with a matching `sessionId`; in the second branch the pushed `text` is
`logEntry.message || logEntry.text`, and `message` is the non-empty string
`'[WECHATY INCOMING]'` there, so the message itself is pushed as the text. -/
def getRepliesFromLogs (sessionId : String)
    (readLog : Except String (List LogEntry)) : List Reply :=
  match readLog with
  | .error _ => []
  | .ok entries =>
    entries.foldl (fun acc e =>
      let acc :=
        if e.message = "WeChat reply received" ∧ e.sessionId = sessionId then
          acc ++ [{ groupId := e.groupId, fromName := e.fromName,
                    text := e.text, timestamp := e.timestamp }]
        else acc
      if e.message = "[WECHATY INCOMING]" ∧ e.sessionId = sessionId then
        acc ++ [{ groupId := e.groupId, fromName := e.fromName,
                  text := e.message, timestamp := e.timestamp }]
      else acc) []

namespace WechatyService

/-- `wechatyService.mapGroupToSession`: `this.groupToSessionMap.set(groupId,
sessionId)`, nothing else — in particular no `logger.warn` on overwrite. -/
def mapGroupToSession (st : SystemState) (groupId sessionId : String) :
    SystemState :=
  { st with serviceGroupToSessionMap :=
      insertA st.serviceGroupToSessionMap groupId sessionId }

/-- `wechatyService.getSessionFromGroup`: the lookup `handleMessage` performs
for every inbound group message. -/
def getSessionFromGroup (st : SystemState) (groupId : String) :
    Option String :=
  lookupA st.serviceGroupToSessionMap groupId

/-- `wechatyService.registerMessageHandler`: `this.messageHandlers.set`.
Only the registered key matters here (the handler closure always wraps
`handleReply sessionId`). -/
def registerMessageHandler (st : SystemState) (sessionId : String) :
    SystemState :=
  { st with serviceMessageHandlers :=
      sessionId :: st.serviceMessageHandlers.filter (fun s => s ≠ sessionId) }

/-- `wechatyService.unregisterMessageHandler`: `this.messageHandlers.delete`. -/
def unregisterMessageHandler (st : SystemState) (sessionId : String) :
    SystemState :=
  { st with serviceMessageHandlers :=
      st.serviceMessageHandlers.filter (fun s => s ≠ sessionId) }

end WechatyService

namespace SessionController

/-- Fixed no-replies summary of `completeSession`. -/
def noRepliesMessage : String :=
  "No replies received from suppliers within the time limit."

/-- `completeSession`'s deferred-cleanup delay: `setTimeout(..., 60000)`. -/
def cleanupDelayMs : Nat := 60000

/-- `sessionController.formatRepliesSimple`'s `replies.map((reply, index) =>
...)`: each reply renders as `reply.from || 'Supplier ' + (index+1)` followed
by `': '` and its text. -/
def renderReplies : Nat → List Reply → List String
  | _, [] => []
  | index, r :: rs =>
    (jsOrStr r.fromName ("Supplier " ++ toString (index + 1)) ++ ": " ++ r.text)
      :: renderReplies (index + 1) rs

/-- `sessionController.formatRepliesSimple` (lines 250-261): the pure
concatenation fallback. -/
def formatRepliesSimple (replies : List Reply) : String :=
  if replies.length = 0 then
    "No replies received from suppliers."
  else
    "Received " ++ toString replies.length ++
      " reply/replies from suppliers:\n\n" ++
      String.intercalate "\n\n" (renderReplies 0 replies)

/-- `sessionController.getSession`. -/
def getSession (st : SystemState) (sessionId : String) : Option Session :=
  lookupA st.sessions sessionId

/-- `sessionController.getSessionFromGroup`: reads the *controller's* map
(not the service's). -/
def getSessionFromGroup (st : SystemState) (groupId : String) :
    Option String :=
  lookupA st.groupToSessionMap groupId

/-- `sessionController.isSessionActive`. -/
def isSessionActive (st : SystemState) (sessionId : String) : Bool :=
  match lookupA st.sessions sessionId with
  | some session => session.status = SessionStatus.active
  | none => false

/-- `Timer.stop` on the timer a session owns: `clearTimeout` when the armed
record is still there, a no-op otherwise (`if (this.timerId)` guard). -/
def stopTimer (st : SystemState) (timerId : Option Nat) : SystemState :=
  match timerId with
  | none => st
  | some tid =>
    { st with armedTimers := st.armedTimers.filter (fun t => t.id ≠ tid) }

/-- The fields `completeSession` result object carries (line 176-184). -/
structure CompletionResult where
  sessionId : String
  category : String
  replies : List Reply
  replyCount : Nat
  summary : String
  duration : Int
  isTimeout : Bool
deriving DecidableEq

/-- `sessionController.completeSession` (lines 130-195), step for step:
return `null` when the session is missing (there is NO `status` guard);
stop the timer; set `status/endTime/duration/isTimeout`; fetch the log
backup and keep the in-memory replies when non-empty; summarize — the LLM
service when present, falling back to `formatRepliesSimple` when its call
throws (which also logs a warning), the fixed message when there are no
replies at all; store `summary`/`finalReplies`; schedule `cleanupSession`
after 60000 ms; return the result object. -/
def completeSession (st : SystemState) (sessionId : String)
    (isTimeout : Bool) (now : Nat) (llmService : Option LlmService)
    (readLog : Except String (List LogEntry)) :
    SystemState × Option CompletionResult :=
  match lookupA st.sessions sessionId with
  | none => (st, none)
  | some session =>
    let st := stopTimer st session.timerId
    let session := { session with
      status := SessionStatus.completed,
      endTime := some now,
      duration := some ((now : Int) - (session.startTime : Int)),
      isTimeout := some isTimeout }
    let logReplies := getRepliesFromLogs sessionId readLog
    let finalReplies :=
      if session.replies.length > 0 then session.replies else logReplies
    let summary :=
      if finalReplies.length > 0 then
        match llmService with
        | some summarizeReplies =>
          match summarizeReplies finalReplies with
          | .ok s => s
          | .error _ => formatRepliesSimple finalReplies
        | none => formatRepliesSimple finalReplies
      else noRepliesMessage
    let newWarnings :=
      if finalReplies.length > 0 then
        match llmService with
        | some summarizeReplies =>
          match summarizeReplies finalReplies with
          | .ok _ => ([] : List String)
          | .error _ => ["LLM summarization failed, using simple format"]
        | none => ([] : List String)
      else ([] : List String)
    let session := { session with
      summary := some summary, finalReplies := some finalReplies }
    let result : CompletionResult := {
      sessionId := sessionId,
      category := session.category,
      replies := finalReplies,
      replyCount := finalReplies.length,
      summary := summary,
      duration := (now : Int) - (session.startTime : Int),
      isTimeout := isTimeout }
    let st := { st with
      sessions := insertA st.sessions sessionId session,
      pendingCleanups := st.pendingCleanups ++ [(now + cleanupDelayMs, sessionId)],
      warnings := st.warnings ++ newWarnings }
    (st, some result)

/-- `sessionController.createSession` (lines 46-81): build the record with
`status='active'`, install both routing-table entries for every supplier
group, register the reply handler, arm the timeout timer for
`wechatyConfig.maxWaitTime`, store the record (overwriting any previous one
under the same id) and return it. -/
def createSession (st : SystemState) (sessionId : String)
    (routingResult : RoutingResult) (originalMessage : String) (now : Nat) :
    SystemState × Session :=
  let timerId := st.nextTimerId
  let sessionData : Session := {
    sessionId := sessionId,
    category := routingResult.category,
    supplierGroups := routingResult.supplierGroups,
    originalMessage := originalMessage,
    replies := [],
    repliesReceived := 0,
    startTime := now,
    status := SessionStatus.active,
    timerId := some timerId }
  let st := { st with
    groupToSessionMap := routingResult.supplierGroups.foldl
      (fun m g => insertA m g.wechatGroupId sessionId) st.groupToSessionMap }
  let st := routingResult.supplierGroups.foldl
    (fun s g => WechatyService.mapGroupToSession s g.wechatGroupId sessionId) st
  let st := WechatyService.registerMessageHandler st sessionId
  let newTimer : TimerRec :=
    { fireAt := now + wechatyConfig.maxWaitTime,
      targetSessionId := sessionId,
      id := timerId }
  let st := { st with
    armedTimers := st.armedTimers ++ [newTimer],
    nextTimerId := timerId + 1 }
  let st := { st with sessions := insertA st.sessions sessionId sessionData }
  (st, sessionData)

/-- `sessionController.handleReply` (lines 88-108): drop the reply unless the
session exists and is `'active'`; otherwise append it, refresh
`repliesReceived`, and when the count reaches `wechatyConfig.replyThreshold`
call `completeSession(sessionId)` (i.e. with `isTimeout = false`). -/
def handleReply (st : SystemState) (sessionId : String) (replyData : Reply)
    (now : Nat) (llmService : Option LlmService)
    (readLog : Except String (List LogEntry)) : SystemState :=
  match lookupA st.sessions sessionId with
  | none => st
  | some session =>
    if session.status = SessionStatus.active then
      let session := { session with
        replies := session.replies ++ [replyData],
        repliesReceived := session.replies.length + 1 }
      let st := { st with sessions := insertA st.sessions sessionId session }
      if session.repliesReceived ≥ wechatyConfig.replyThreshold then
        (completeSession st sessionId false now llmService readLog).1
      else st
    else st

/-- `sessionController.handleTimeout` (lines 114-122): no-op unless the
session exists and is `'active'`; otherwise `logSessionTimeout` (a
`logger.warn('Session timeout')`) and `completeSession(sessionId, true)`. -/
def handleTimeout (st : SystemState) (sessionId : String) (now : Nat)
    (llmService : Option LlmService)
    (readLog : Except String (List LogEntry)) : SystemState :=
  match lookupA st.sessions sessionId with
  | none => st
  | some session =>
    if session.status = SessionStatus.active then
      let st := { st with warnings := st.warnings ++ ["Session timeout"] }
      (completeSession st sessionId true now llmService readLog).1
    else st

/-- A pending `setTimeout` of `Timer.start` firing: the callback body runs
(`handleTimeout` on the target session, at the timer's fire time) and the
timer is no longer armed. -/
def fireTimer (st : SystemState) (t : TimerRec)
    (llmService : Option LlmService)
    (readLog : Except String (List LogEntry)) : SystemState :=
  let st := { st with armedTimers := st.armedTimers.filter (fun u => u.id ≠ t.id) }
  handleTimeout st t.targetSessionId t.fireAt llmService readLog

/-- `sessionController.cleanupSession` (lines 201-215): when the session is
still stored, unregister its service message handler, delete each supplier
group's entry from the controller's `groupToSessionMap`, and delete the
session — note that the entries `createSession` installed in the *service's*
`groupToSessionMap` are not touched. -/
def cleanupSession (st : SystemState) (sessionId : String) : SystemState :=
  match lookupA st.sessions sessionId with
  | none => st
  | some session =>
    let st := WechatyService.unregisterMessageHandler st sessionId
    let st := { st with groupToSessionMap :=
      (session.supplierGroups.foldl
        (fun (m : List (String × String)) (g : SupplierGroup) =>
          eraseA m g.wechatGroupId)
        st.groupToSessionMap) }
    { st with sessions := eraseA st.sessions sessionId }

end SessionController

namespace WhatsappRoute

/-- The value `waitForSessionCompletion` resolves with on observing a
completed session. -/
structure WaitResult where
  sessionId : String
  replies : List Reply
  summary : String
deriving DecidableEq

/-- Outcome of one poll tick: either keep polling or resolve the promise. -/
inductive PollOutcome
  | keepWaiting
  | resolved (r : Option WaitResult)
deriving DecidableEq

/-- `waitForSessionCompletion`'s poll interval (1000 ms). -/
def waiterPollIntervalMs : Nat := 1000

/-- `waitForSessionCompletion`'s safety-net `setTimeout` delay (650000 ms,
"10 minutes + buffer"). -/
def waiterSafetyNetMs : Nat := 650000

/-- One tick of `waitForSessionCompletion`'s `setInterval` body
(`src/routes/whatsapp.js` lines 167-184): keep waiting while the session
exists and is not completed; resolve with `{sessionId, replies:
session.finalReplies || session.replies, summary: session.summary ||
'Processing replies...'}` once it is completed; resolve with `null` when the
session is gone. -/
def pollTick (st : SystemState) (sessionId : String) : PollOutcome :=
  match SessionController.getSession st sessionId with
  | none => PollOutcome.resolved none
  | some session =>
    if session.status = SessionStatus.completed then
      PollOutcome.resolved (some {
        sessionId := sessionId,
        replies := session.finalReplies.getD session.replies,
        summary := jsOrStr session.summary "Processing replies..." })
    else PollOutcome.keepWaiting

/-- The safety-net `setTimeout` body (lines 187-195): when the session is
still `'active'` it forces `completeSession(sessionId, true)` and resolves
with that result; otherwise it resolves with `null` and the state is left
alone. -/
def safetyNetFire (st : SystemState) (sessionId : String) (now : Nat)
    (llmService : Option LlmService)
    (readLog : Except String (List LogEntry)) :
    SystemState × Option SessionController.CompletionResult :=
  match SessionController.getSession st sessionId with
  | none => (st, none)
  | some session =>
    if session.status = SessionStatus.active then
      SessionController.completeSession st sessionId true now llmService readLog
    else (st, none)

end WhatsappRoute

open SessionController WhatsappRoute

/-! ### Helper lemmas about the embedded operations -/

theorem jsOrStr_of_present (v : Option String) (d : String)
    (h : v.getD "" ≠ "") : jsOrStr v d = v.getD "" := by
  cases v with
  | none => simp at h
  | some s =>
    simp only [Option.getD] at h ⊢
    simp [jsOrStr, h]

theorem handleReply_eq_of_none (st : SystemState) (sessionId : String)
    (replyData : Reply) (now : Nat) (llmService : Option LlmService)
    (readLog : Except String (List LogEntry))
    (h : lookupA st.sessions sessionId = none) :
    handleReply st sessionId replyData now llmService readLog = st := by
  simp [handleReply, h]

theorem handleReply_eq_of_not_active (st : SystemState) (sessionId : String)
    (replyData : Reply) (now : Nat) (llmService : Option LlmService)
    (readLog : Except String (List LogEntry)) (session : Session)
    (h : lookupA st.sessions sessionId = some session)
    (hstat : session.status ≠ SessionStatus.active) :
    handleReply st sessionId replyData now llmService readLog = st := by
  simp [handleReply, h, hstat]

theorem handleTimeout_eq_of_none (st : SystemState) (sessionId : String)
    (now : Nat) (llmService : Option LlmService)
    (readLog : Except String (List LogEntry))
    (h : lookupA st.sessions sessionId = none) :
    handleTimeout st sessionId now llmService readLog = st := by
  simp [handleTimeout, h]

theorem handleTimeout_eq_of_not_active (st : SystemState) (sessionId : String)
    (now : Nat) (llmService : Option LlmService)
    (readLog : Except String (List LogEntry)) (session : Session)
    (h : lookupA st.sessions sessionId = some session)
    (hstat : session.status ≠ SessionStatus.active) :
    handleTimeout st sessionId now llmService readLog = st := by
  simp [handleTimeout, h, hstat]

/-- After `completeSession` on a stored session, the stored record is
completed, carries the completion bookkeeping, and keeps its pre-completion
identity fields. -/
theorem completeSession_stored (st : SystemState) (sessionId : String)
    (isTimeout : Bool) (now : Nat) (llmService : Option LlmService)
    (readLog : Except String (List LogEntry)) (session : Session)
    (h : lookupA st.sessions sessionId = some session) :
    (lookupA (completeSession st sessionId isTimeout now llmService
        readLog).1.sessions sessionId).map Session.status =
      some SessionStatus.completed ∧
    (lookupA (completeSession st sessionId isTimeout now llmService
        readLog).1.sessions sessionId).map Session.endTime =
      some (some now) ∧
    (lookupA (completeSession st sessionId isTimeout now llmService
        readLog).1.sessions sessionId).map Session.isTimeout =
      some (some isTimeout) ∧
    (lookupA (completeSession st sessionId isTimeout now llmService
        readLog).1.sessions sessionId).map Session.startTime =
      some session.startTime ∧
    (lookupA (completeSession st sessionId isTimeout now llmService
        readLog).1.sessions sessionId).map Session.replies =
      some session.replies := by
  simp [completeSession, h]

theorem foldl_mapGroup_sessions (groups : List SupplierGroup)
    (st : SystemState) (sid : String) :
    (groups.foldl
      (fun s g => WechatyService.mapGroupToSession s g.wechatGroupId sid)
      st).sessions = st.sessions := by
  induction groups generalizing st with
  | nil => rfl
  | cons g gs ih =>
    rw [List.foldl_cons]
    exact ih _

theorem foldl_mapGroup_armedTimers (groups : List SupplierGroup)
    (st : SystemState) (sid : String) :
    (groups.foldl
      (fun s g => WechatyService.mapGroupToSession s g.wechatGroupId sid)
      st).armedTimers = st.armedTimers := by
  induction groups generalizing st with
  | nil => rfl
  | cons g gs ih =>
    rw [List.foldl_cons]
    exact ih _

theorem foldl_mapGroup_nextTimerId (groups : List SupplierGroup)
    (st : SystemState) (sid : String) :
    (groups.foldl
      (fun s g => WechatyService.mapGroupToSession s g.wechatGroupId sid)
      st).nextTimerId = st.nextTimerId := by
  induction groups generalizing st with
  | nil => rfl
  | cons g gs ih =>
    rw [List.foldl_cons]
    exact ih _

theorem foldl_mapGroup_warnings (groups : List SupplierGroup)
    (st : SystemState) (sid : String) :
    (groups.foldl
      (fun s g => WechatyService.mapGroupToSession s g.wechatGroupId sid)
      st).warnings = st.warnings := by
  induction groups generalizing st with
  | nil => rfl
  | cons g gs ih =>
    rw [List.foldl_cons]
    exact ih _

theorem foldl_mapGroup_pendingCleanups (groups : List SupplierGroup)
    (st : SystemState) (sid : String) :
    (groups.foldl
      (fun s g => WechatyService.mapGroupToSession s g.wechatGroupId sid)
      st).pendingCleanups = st.pendingCleanups := by
  induction groups generalizing st with
  | nil => rfl
  | cons g gs ih =>
    rw [List.foldl_cons]
    exact ih _

/-- Characterization of `createSession`: the stored record, the freshly armed
timer, and the fields the call leaves alone. -/
theorem createSession_spec (st : SystemState) (sid : String)
    (rr : RoutingResult) (msg : String) (now : Nat) :
    (createSession st sid rr msg now).1.sessions =
      insertA st.sessions sid (createSession st sid rr msg now).2 ∧
    (createSession st sid rr msg now).2 =
      { sessionId := sid, category := rr.category,
        supplierGroups := rr.supplierGroups, originalMessage := msg,
        replies := [], repliesReceived := 0, startTime := now,
        status := SessionStatus.active, timerId := some st.nextTimerId } ∧
    (createSession st sid rr msg now).1.armedTimers = st.armedTimers ++
      [{ fireAt := now + wechatyConfig.maxWaitTime, targetSessionId := sid,
         id := st.nextTimerId }] ∧
    (createSession st sid rr msg now).1.nextTimerId = st.nextTimerId + 1 ∧
    (createSession st sid rr msg now).1.warnings = st.warnings ∧
    (createSession st sid rr msg now).1.pendingCleanups =
      st.pendingCleanups := by
  refine ⟨?_, rfl, ?_, ?_, ?_, ?_⟩ <;>
    simp [createSession, WechatyService.registerMessageHandler,
      foldl_mapGroup_sessions, foldl_mapGroup_armedTimers,
      foldl_mapGroup_nextTimerId, foldl_mapGroup_warnings,
      foldl_mapGroup_pendingCleanups]

/-! ### A concrete run of the engine, used as witness input

`exActive` is the state right after `createSession "s1"` for category
`"basin"` with the single supplier group `"g1"`; `exCompleted` completes it
(no LLM service, empty log); `exCleaned` runs the deferred cleanup. -/

def exGroup : SupplierGroup := { wechatGroupId := "g1" }

def exRouting : RoutingResult :=
  { category := "basin", supplierGroups := [exGroup] }

def exReplyA : Reply :=
  { groupId := "g1", fromName := some "A", text := "yes", timestamp := 1 }

def exReplyB : Reply :=
  { groupId := "g1", fromName := some "B", text := "in stock", timestamp := 2 }

def exActive : SystemState :=
  (createSession {} "s1" exRouting "need basins" 0).1

def exCompleted : SystemState :=
  (completeSession exActive "s1" false 5 none (Except.ok [])).1

def exCleaned : SystemState := cleanupSession exCompleted "s1"

/-- The record `createSession` stores for `exActive` (checked by `decide`
where used). -/
def exActiveSession : Session :=
  { sessionId := "s1", category := "basin", supplierGroups := [exGroup],
    originalMessage := "need basins", replies := [], repliesReceived := 0,
    startTime := 0, status := SessionStatus.active, timerId := some 0 }

/-- The record stored in `exCompleted` after the completion at `now = 5`. -/
def exCompletedSession : Session :=
  { sessionId := "s1", category := "basin", supplierGroups := [exGroup],
    originalMessage := "need basins", replies := [], repliesReceived := 0,
    startTime := 0, status := SessionStatus.completed, timerId := some 0,
    endTime := some 5, duration := some 5, isTimeout := some false,
    summary := some noRepliesMessage, finalReplies := some [] }

/-- Two sessions created in a row whose routing results share the supplier
group `"g1"`: the second `createSession` overwrites the group's entry in both
routing tables while `"sA"` is still active. -/
def exOverwrite : SystemState :=
  (createSession (createSession {} "sA" exRouting "m1" 0).1 "sB" exRouting
    "m2" 1).1

/-- A first direct `completeSession` call on the active example session, at
`now = 1000`. -/
def exComplete1 : SystemState × Option CompletionResult :=
  completeSession exActive "s1" false 1000 none (Except.ok [])

/-- State with a replaced session store (proof abbreviation for the
`handleReply` characterizations below). -/
def setSessions (st : SystemState) (s : List (String × Session)) :
    SystemState :=
  { st with sessions := s }

/-- A session after appending replies (proof abbreviation). -/
def withReplies (session : Session) (rs : List Reply) (n : Nat) : Session :=
  { session with replies := rs, repliesReceived := n }

/-- A second direct `completeSession` call on the already-completed session,
at `now = 2000`. -/
def exComplete2 : SystemState × Option CompletionResult :=
  completeSession exComplete1.1 "s1" false 2000 none (Except.ok [])

/-! ### The claims -/

/-- C4: for every sessionId whose session is missing or not `'active'`,
`handleReply` is a no-op — the state (hence every field of the stored
session, and every queue in the system) is unchanged, so a late reply is
dropped, not queued. -/
theorem handleReply_late_reply_drop (st : SystemState) (sessionId : String)
    (replyData : Reply) (now : Nat) (llmService : Option LlmService)
    (readLog : Except String (List LogEntry))
    (h : lookupA st.sessions sessionId = none ∨
      ∃ session, lookupA st.sessions sessionId = some session ∧
        session.status ≠ SessionStatus.active) :
    handleReply st sessionId replyData now llmService readLog = st := by
  rcases h with h | ⟨session, hs, hstat⟩
  · exact handleReply_eq_of_none st sessionId replyData now llmService
      readLog h
  · exact handleReply_eq_of_not_active st sessionId replyData now llmService
      readLog session hs hstat

/-- C4 witness: a reply delivered to the completed example session leaves the
state untouched. -/
theorem handleReply_late_reply_drop_witness :
    handleReply exCompleted "s1" exReplyA 7 none (Except.ok []) =
      exCompleted :=
  handleReply_late_reply_drop exCompleted "s1" exReplyA 7 none
    (Except.ok [])
    (Or.inr ⟨exCompletedSession, by decide, by decide⟩)

/-- C2 (code bug, evaluated at the failing input): after the session
`"s1"` with target group `"g1"` is completed and `cleanupSession` runs, the
session is gone from the Session Store and from the controller's own routing
table, and its message handler is unregistered — but in the wechaty
service's `groupToSessionMap`, the routing table `handleMessage` actually
reads for every inbound reply, `"g1"` still resolves to `"s1"`: the entry is
left dangling, contradicting the claim that every `targetGroups` groupId
resolves to none after cleanup. -/
theorem cleanupSession_leaves_service_map_dangling :
    getSession exCleaned "s1" = none ∧
    SessionController.getSessionFromGroup exCleaned "g1" = none ∧
    exCleaned.serviceMessageHandlers = [] ∧
    WechatyService.getSessionFromGroup exCleaned "g1" = some "s1" := by
  decide

theorem renderReplies_eq_map (replies : List Reply)
    (hnamed : ∀ r ∈ replies, r.fromName.getD "" ≠ "") (i : Nat) :
    renderReplies i replies =
      replies.map (fun r => r.fromName.getD "" ++ ": " ++ r.text) := by
  induction replies generalizing i with
  | nil => rfl
  | cons r rs ih =>
    have hr := hnamed r (List.mem_cons_self r rs)
    simp only [renderReplies, List.map_cons]
    rw [jsOrStr_of_present _ _ hr,
      ih (fun x hx => hnamed x (List.mem_cons_of_mem r hx))]

/-- C6: on every non-empty reply list whose entries carry a (non-empty)
sender, `formatRepliesSimple` returns the reply-count line followed by each
reply rendered as `"<sender>: <text>"` joined with blank lines (the spec
names the reply's sender field `senderName`; in the source replies carry it
as `from`, embedded here as `fromName`). -/
theorem formatRepliesSimple_spec (replies : List Reply)
    (hne : replies ≠ [])
    (hnamed : ∀ r ∈ replies, r.fromName.getD "" ≠ "") :
    formatRepliesSimple replies =
      "Received " ++ toString replies.length ++
        " reply/replies from suppliers:\n\n" ++
        String.intercalate "\n\n"
          (replies.map (fun r => r.fromName.getD "" ++ ": " ++ r.text)) := by
  have hlen : ¬ replies.length = 0 := fun hl => hne (List.length_eq_zero.mp hl)
  simp [formatRepliesSimple, hlen, renderReplies_eq_map replies hnamed 0]

/-- C6 witness: the spec's concrete example — two replies from senders `A`
and `B` produce exactly the claimed string. -/
theorem formatRepliesSimple_spec_witness :
    formatRepliesSimple [exReplyA, exReplyB] =
      "Received 2 reply/replies from suppliers:\n\nA: yes\n\nB: in stock" :=
  (formatRepliesSimple_spec [exReplyA, exReplyB] (by decide)
    (by decide)).trans (by decide)

/-- C7 counterexample: the routing results of two sessions that are both
still active map the same group `"g1"`; the second `createSession` silently
overwrites the entry — the most recently written sessionId wins in both
routing tables, but the warning trace stays empty, refuting "never
silent". -/
theorem group_overwrite_logs_no_warning :
    isSessionActive exOverwrite "sA" = true ∧
    isSessionActive exOverwrite "sB" = true ∧
    WechatyService.getSessionFromGroup exOverwrite "g1" = some "sB" ∧
    SessionController.getSessionFromGroup exOverwrite "g1" = some "sB" ∧
    exOverwrite.warnings = [] := by
  decide

/-- C7 amended: installing a groupId-to-sessionId entry over an existing one
is last-writer-wins and *silent*: resolving the group afterwards returns the
most recently written sessionId, and neither `mapGroupToSession` nor
`createSession` appends anything to the warning trace. -/
theorem mapGroupToSession_last_writer_wins (st : SystemState)
    (g s1 s2 sid msg : String) (rr : RoutingResult) (now : Nat) :
    WechatyService.getSessionFromGroup
      (WechatyService.mapGroupToSession
        (WechatyService.mapGroupToSession st g s1) g s2) g = some s2 ∧
    (WechatyService.mapGroupToSession
      (WechatyService.mapGroupToSession st g s1) g s2).warnings =
      st.warnings ∧
    (createSession st sid rr msg now).1.warnings = st.warnings := by
  refine ⟨?_, rfl, (createSession_spec st sid rr msg now).2.2.2.2.1⟩
  simp [WechatyService.mapGroupToSession, WechatyService.getSessionFromGroup]

/-- C1 counterexample: `completeSession` has no `status === 'active'` guard.
Calling it directly a second time on the already-completed session `"s1"`
(first at `now = 1000`, again at `now = 2000`) recomputes instead of
returning the cached result: the two returned results carry different
durations, the stored `endTime` is overwritten from 1000 to 2000, and a
second cleanup is scheduled — more than one state transition, and the
results are not identical across calls. -/
theorem completeSession_second_call_recomputes :
    exComplete1.2.map CompletionResult.duration = some 1000 ∧
    exComplete2.2.map CompletionResult.duration = some 2000 ∧
    exComplete1.2 ≠ exComplete2.2 ∧
    (getSession exComplete1.1 "s1").map Session.endTime = some (some 1000) ∧
    (getSession exComplete2.1 "s1").map Session.endTime = some (some 2000) ∧
    exComplete2.1.pendingCleanups.length = 2 := by
  decide

/-- C1 corrected: in the code, at-most-one completion is enforced by the
*callers*, not by `completeSession` itself — once a session has been
completed, every subsequent reply-triggered (`handleReply`) and
timeout-triggered (`handleTimeout`) invocation is a no-op, so any mix of
such triggered calls performs exactly one transition; only a *direct*
repeated `completeSession` call recomputes (see the counterexample). -/
theorem completion_once_via_guarded_triggers (st : SystemState)
    (sessionId : String) (isTimeout : Bool) (now : Nat)
    (llmService : Option LlmService) (readLog : Except String (List LogEntry))
    (session : Session)
    (h : lookupA st.sessions sessionId = some session)
    (r : Reply) (n2 : Nat) (llm2 : Option LlmService)
    (log2 : Except String (List LogEntry)) :
    handleReply (completeSession st sessionId isTimeout now llmService
        readLog).1 sessionId r n2 llm2 log2 =
      (completeSession st sessionId isTimeout now llmService readLog).1 ∧
    handleTimeout (completeSession st sessionId isTimeout now llmService
        readLog).1 sessionId n2 llm2 log2 =
      (completeSession st sessionId isTimeout now llmService readLog).1 := by
  obtain ⟨hstat, -, -, -, -⟩ := completeSession_stored st sessionId isTimeout
    now llmService readLog session h
  obtain ⟨s', hs', hs'stat⟩ : ∃ s',
      lookupA (completeSession st sessionId isTimeout now llmService
        readLog).1.sessions sessionId = some s' ∧
      s'.status = SessionStatus.completed := by
    cases hl : lookupA (completeSession st sessionId isTimeout now llmService
        readLog).1.sessions sessionId with
    | none => rw [hl] at hstat; cases hstat
    | some s' =>
      rw [hl] at hstat
      exact ⟨s', rfl, by simpa using hstat⟩
  have hne : s'.status ≠ SessionStatus.active := by simp [hs'stat]
  exact ⟨handleReply_eq_of_not_active _ _ _ _ _ _ s' hs' hne,
    handleTimeout_eq_of_not_active _ _ _ _ _ s' hs' hne⟩

/-- C1 witness (of the corrected claim): on the completed example session,
both triggered paths leave the state unchanged. -/
theorem completion_once_via_guarded_triggers_witness :
    handleReply exCompleted "s1" exReplyB 9 none (Except.ok []) =
      exCompleted ∧
    handleTimeout exCompleted "s1" 9 none (Except.ok []) = exCompleted :=
  completion_once_via_guarded_triggers exActive "s1" false 5 none
    (Except.ok []) exActiveSession (by decide) exReplyB 9 none
    (Except.ok [])

/-- C3: with the configured `replyThreshold = 3`, a session that starts
`'active'` with no replies is still `'active'` after two `handleReply`
calls; the third call appends its reply (the stored reply list is exactly
the three delivered replies, in order) and transitions the session to
`'completed'` with `isTimeout = false`, within that same call. -/
theorem handleReply_threshold_correctness (st : SystemState)
    (sessionId : String) (session : Session) (r1 r2 r3 : Reply)
    (n1 n2 n3 : Nat) (llm1 llm2 llm3 : Option LlmService)
    (log1 log2 log3 : Except String (List LogEntry))
    (h : lookupA st.sessions sessionId = some session)
    (hact : session.status = SessionStatus.active)
    (hrep : session.replies = []) :
    wechatyConfig.replyThreshold = 3 ∧
    ((getSession (handleReply st sessionId r1 n1 llm1 log1) sessionId).map
      Session.status = some SessionStatus.active) ∧
    ((getSession (handleReply (handleReply st sessionId r1 n1 llm1 log1)
        sessionId r2 n2 llm2 log2) sessionId).map Session.status =
      some SessionStatus.active) ∧
    ((getSession (handleReply (handleReply (handleReply st sessionId r1 n1
        llm1 log1) sessionId r2 n2 llm2 log2) sessionId r3 n3 llm3 log3)
        sessionId).map Session.status = some SessionStatus.completed) ∧
    ((getSession (handleReply (handleReply (handleReply st sessionId r1 n1
        llm1 log1) sessionId r2 n2 llm2 log2) sessionId r3 n3 llm3 log3)
        sessionId).map Session.isTimeout = some (some false)) ∧
    ((getSession (handleReply (handleReply (handleReply st sessionId r1 n1
        llm1 log1) sessionId r2 n2 llm2 log2) sessionId r3 n3 llm3 log3)
        sessionId).map Session.replies = some [r1, r2, r3]) := by
  have e1 : handleReply st sessionId r1 n1 llm1 log1 =
      setSessions st (insertA st.sessions sessionId
        (withReplies session [r1] 1)) := by
    simp [handleReply, h, hact, hrep, wechatyConfig, setSessions,
      withReplies]
  have e2 : handleReply (handleReply st sessionId r1 n1 llm1 log1) sessionId
      r2 n2 llm2 log2 =
      setSessions st (insertA (insertA st.sessions sessionId
        (withReplies session [r1] 1)) sessionId
        (withReplies session [r1, r2] 2)) := by
    rw [e1]
    simp [handleReply, hact, wechatyConfig, setSessions, withReplies]
  have h3 : lookupA (handleReply (handleReply st sessionId r1 n1 llm1 log1)
      sessionId r2 n2 llm2 log2).sessions sessionId =
      some (withReplies session [r1, r2] 2) := by
    rw [e2]
    exact lookupA_insertA_self _ _ _
  have e3 : handleReply (handleReply (handleReply st sessionId r1 n1 llm1
      log1) sessionId r2 n2 llm2 log2) sessionId r3 n3 llm3 log3 =
      (completeSession (setSessions (handleReply (handleReply st sessionId
          r1 n1 llm1 log1) sessionId r2 n2 llm2 log2)
          (insertA (handleReply (handleReply st sessionId r1 n1 llm1 log1)
            sessionId r2 n2 llm2 log2).sessions sessionId
            (withReplies session [r1, r2, r3] 3)))
        sessionId false n3 llm3 log3).1 := by
    rw [handleReply, h3]
    simp [hact, wechatyConfig, setSessions, withReplies]
  obtain ⟨c1, -, c3, -, c5⟩ := completeSession_stored
    (setSessions (handleReply (handleReply st sessionId r1 n1 llm1 log1)
        sessionId r2 n2 llm2 log2)
      (insertA (handleReply (handleReply st sessionId r1 n1 llm1 log1)
        sessionId r2 n2 llm2 log2).sessions sessionId
        (withReplies session [r1, r2, r3] 3)))
    sessionId false n3 llm3 log3 (withReplies session [r1, r2, r3] 3)
    (lookupA_insertA_self _ _ _)
  refine ⟨rfl, ?_, ?_, ?_, ?_, ?_⟩
  · rw [e1]
    simp [getSession, setSessions, withReplies, hact]
  · rw [e2]
    simp [getSession, setSessions, withReplies, hact]
  · rw [e3]
    exact c1
  · rw [e3]
    exact c3
  · rw [e3]
    simpa [withReplies] using c5

/-- C3 witness: the concrete three-reply run on the example session. -/
theorem handleReply_threshold_correctness_witness :
    ((getSession (handleReply exActive "s1" exReplyA 10 none (Except.ok []))
      "s1").map Session.status = some SessionStatus.active) ∧
    ((getSession (handleReply (handleReply exActive "s1" exReplyA 10 none
        (Except.ok [])) "s1" exReplyB 20 none (Except.ok [])) "s1").map
      Session.status = some SessionStatus.active) ∧
    ((getSession (handleReply (handleReply (handleReply exActive "s1"
        exReplyA 10 none (Except.ok [])) "s1" exReplyB 20 none
        (Except.ok [])) "s1" exReplyA 30 none (Except.ok [])) "s1").map
      Session.status = some SessionStatus.completed) := by
  obtain ⟨-, w1, w2, w3, -, -⟩ := handleReply_threshold_correctness exActive
    "s1" exActiveSession exReplyA exReplyB exReplyA 10 20 30 none none none
    (Except.ok []) (Except.ok []) (Except.ok []) (by decide) (by decide)
    (by decide)
  exact ⟨w1, w2, w3⟩

/-- C5: completion always yields a summary and summarization failure is
never surfaced.  For a stored session: `completeSession` returns a result
(`some res`), and the stored record's `summary` field is set to `res`'s
summary string; when `finalReplies` (`res.replies`) is empty the summary is
the fixed no-replies message and the summarizer is not invoked — the result
is the same for every `llmService`; when the summarizer is invoked (the
reply list is non-empty) and throws, the summary equals the
simple-concatenation formatter's output for the same replies. -/
theorem completeSession_summary_semantics (st : SystemState)
    (sessionId : String) (isTimeout : Bool) (now : Nat)
    (llmService : Option LlmService)
    (readLog : Except String (List LogEntry)) (session : Session)
    (h : lookupA st.sessions sessionId = some session) :
    ∃ res, (completeSession st sessionId isTimeout now llmService readLog).2
        = some res ∧
      (res.replies = [] → res.summary = noRepliesMessage ∧
        ∀ llm2, (completeSession st sessionId isTimeout now llm2 readLog).2
          = some res) ∧
      (res.replies ≠ [] → ∀ f e, llmService = some f →
        f res.replies = Except.error e →
        res.summary = formatRepliesSimple res.replies) ∧
      ((getSession (completeSession st sessionId isTimeout now llmService
        readLog).1 sessionId).map Session.summary =
        some (some res.summary)) := by
  simp only [completeSession, h]
  refine ⟨_, rfl, ?_, ?_, ?_⟩
  · intro hempty
    have hempty2 : (if session.replies.length > 0 then session.replies
        else getRepliesFromLogs sessionId readLog) = [] := hempty
    constructor
    · simp [hempty2]
    · intro llm2
      rw [hempty2]
      simp
  · intro hne f e hf herr
    subst hf
    have hlen : 0 < (if session.replies.length > 0 then session.replies
        else getRepliesFromLogs sessionId readLog).length :=
      List.length_pos.mpr hne
    simp [hlen, herr]
  · simp [getSession]

/-- A completion that ends with an LLM call that always throws. -/
def exFailingLlm : LlmService := fun _ => Except.error "LLM unavailable"

/-- The example session after two replies (still below the threshold). -/
def exActive2 : SystemState :=
  handleReply (handleReply exActive "s1" exReplyA 10 none (Except.ok []))
    "s1" exReplyB 20 none (Except.ok [])

/-- The record stored in `exActive2`. -/
def exActive2Session : Session :=
  { sessionId := "s1", category := "basin", supplierGroups := [exGroup],
    originalMessage := "need basins", replies := [exReplyA, exReplyB],
    repliesReceived := 2, startTime := 0, status := SessionStatus.active,
    timerId := some 0 }

/-- C5 witness: completing with two replies and a throwing LLM summarizer
still succeeds, the summary being the simple-concatenation fallback. -/
theorem completeSession_summary_semantics_witness :
    ∃ res, (completeSession exActive2 "s1" false 99 (some exFailingLlm)
        (Except.ok [])).2 = some res ∧
      res.summary = formatRepliesSimple res.replies := by
  obtain ⟨res, hres, -, hfb, -⟩ := completeSession_summary_semantics
    exActive2 "s1" false 99 (some exFailingLlm) (Except.ok [])
    exActive2Session (by decide)
  have hconc : (completeSession exActive2 "s1" false 99 (some exFailingLlm)
      (Except.ok [])).2.map CompletionResult.replies =
      some [exReplyA, exReplyB] := by decide
  rw [hres] at hconc
  have hrepl : res.replies = [exReplyA, exReplyB] := by simpa using hconc
  exact ⟨res, hres,
    hfb (by simp [hrepl]) exFailingLlm "LLM unavailable" rfl rfl⟩

/-- C8: recovery never overwrites in-memory replies.  At completion,
`res.replies` (the `finalReplies`) equals the in-memory reply list whenever
that list is non-empty; only when it is empty does it equal whatever
`getRepliesFromLogs` returns; and a failure inside the recovery source (the
`readLog` input is an exception) makes `getRepliesFromLogs` return `[]`
instead of propagating — `completeSession` still returns a result. -/
theorem completeSession_replies_recovery (st : SystemState)
    (sessionId : String) (isTimeout : Bool) (now : Nat)
    (llmService : Option LlmService)
    (readLog : Except String (List LogEntry)) (session : Session)
    (h : lookupA st.sessions sessionId = some session) :
    ∃ res, (completeSession st sessionId isTimeout now llmService readLog).2
        = some res ∧
      (session.replies ≠ [] → res.replies = session.replies) ∧
      (session.replies = [] →
        res.replies = getRepliesFromLogs sessionId readLog) ∧
      (∀ e, readLog = Except.error e →
        getRepliesFromLogs sessionId readLog = []) := by
  simp only [completeSession, h]
  refine ⟨_, rfl, ?_, ?_, ?_⟩
  · intro hne
    have hlen : session.replies.length > 0 := List.length_pos.mpr hne
    simp [hlen]
  · intro hemp
    simp [hemp]
  · intro e he
    simp [getRepliesFromLogs, he]

/-- C8 witness: completing the (reply-less) example session while the
recovery source throws yields an empty final reply list, and the call still
returns a result. -/
theorem completeSession_replies_recovery_witness :
    ∃ res, (completeSession exActive "s1" true 50 none
        (Except.error "fs failure")).2 = some res ∧
      res.replies = [] := by
  obtain ⟨res, hres, -, hemp, hfail⟩ := completeSession_replies_recovery
    exActive "s1" true 50 none (Except.error "fs failure") exActiveSession
    (by decide)
  refine ⟨res, hres, ?_⟩
  rw [hemp rfl, hfail "fs failure" rfl]

/-- C9: the Completion Waiter.  Its safety-net timeout (650000 ms) strictly
exceeds the controller's `maxWaitTime` (600000 ms); a poll tick resolves
with `{sessionId, replies, summary}` once the stored session is
`'completed'`, resolves with `null` when the session is gone, and otherwise
keeps waiting (every tick yields one of these outcomes — nothing throws);
and the safety-net body forces `completeSession(sessionId, isTimeout=true)`
if and only if the session is still `'active'` (otherwise it resolves
`null` and leaves the state alone). -/
theorem waitForSessionCompletion_spec (st : SystemState)
    (sessionId : String) (now : Nat) (llmService : Option LlmService)
    (readLog : Except String (List LogEntry)) :
    waiterSafetyNetMs > wechatyConfig.maxWaitTime ∧
    (∀ session, getSession st sessionId = some session →
      session.status = SessionStatus.completed →
      pollTick st sessionId = PollOutcome.resolved (some (WaitResult.mk
        sessionId (session.finalReplies.getD session.replies)
        (jsOrStr session.summary "Processing replies...")))) ∧
    (getSession st sessionId = none →
      pollTick st sessionId = PollOutcome.resolved none) ∧
    (pollTick st sessionId = PollOutcome.keepWaiting ∨
      ∃ r, pollTick st sessionId = PollOutcome.resolved r) ∧
    (∀ session, getSession st sessionId = some session →
      session.status = SessionStatus.active →
      safetyNetFire st sessionId now llmService readLog =
        completeSession st sessionId true now llmService readLog) ∧
    ((∀ session, getSession st sessionId = some session →
        session.status ≠ SessionStatus.active) →
      safetyNetFire st sessionId now llmService readLog = (st, none)) := by
  refine ⟨by decide, ?_, ?_, ?_, ?_, ?_⟩
  · intro session hs hc
    simp [pollTick, hs, hc]
  · intro hs
    simp [pollTick, hs]
  · cases hl : getSession st sessionId with
    | none => exact Or.inr ⟨none, by simp [pollTick, hl]⟩
    | some session =>
      by_cases hc : session.status = SessionStatus.completed
      · exact Or.inr ⟨some (WaitResult.mk sessionId
          (session.finalReplies.getD session.replies)
          (jsOrStr session.summary "Processing replies...")),
          by simp [pollTick, hl, hc]⟩
      · exact Or.inl (by simp [pollTick, hl, hc])
  · intro session hs hact
    simp [safetyNetFire, hs, hact]
  · intro hno
    cases hl : getSession st sessionId with
    | none => simp [safetyNetFire, hl]
    | some session =>
      have hne := hno session hl
      simp [safetyNetFire, hl, hne]

/-- C9 witness: the constants compare as claimed; on the completed example
session a poll tick resolves with the stored summary; on an empty store the
safety net resolves `null` without forcing a completion. -/
theorem waitForSessionCompletion_spec_witness :
    waiterSafetyNetMs > wechatyConfig.maxWaitTime ∧
    pollTick exCompleted "s1" = PollOutcome.resolved (some
      (WaitResult.mk "s1" [] noRepliesMessage)) ∧
    safetyNetFire ({} : SystemState) "s1" 0 none (Except.ok []) =
      ({}, none) := by
  obtain ⟨h1, h2, -, -, -, -⟩ := waitForSessionCompletion_spec exCompleted
    "s1" 0 none (Except.ok [])
  obtain ⟨-, -, -, -, -, h6⟩ := waitForSessionCompletion_spec
    ({} : SystemState) "s1" 0 none (Except.ok [])
  refine ⟨h1, ?_, h6 (fun session hs => nomatch hs)⟩
  exact (h2 exCompletedSession (by decide) (by decide)).trans (by decide)

/-- Firing an armed timeout timer whose target session is stored and still
`'active'` completes that session, with `isTimeout = true`, at the timer's
fire time, keeping the session's own `startTime`. -/
theorem fireTimer_completes (st : SystemState) (t : TimerRec)
    (llmService : Option LlmService)
    (readLog : Except String (List LogEntry)) (s : Session)
    (h : lookupA st.sessions t.targetSessionId = some s)
    (hact : s.status = SessionStatus.active) :
    ((getSession (fireTimer st t llmService readLog) t.targetSessionId).map
      Session.status = some SessionStatus.completed) ∧
    ((getSession (fireTimer st t llmService readLog) t.targetSessionId).map
      Session.isTimeout = some (some true)) ∧
    ((getSession (fireTimer st t llmService readLog) t.targetSessionId).map
      Session.endTime = some (some t.fireAt)) ∧
    ((getSession (fireTimer st t llmService readLog) t.targetSessionId).map
      Session.startTime = some s.startTime) := by
  obtain ⟨c1, c2, c3, c4, -⟩ := completeSession_stored
    { st with
      armedTimers := st.armedTimers.filter (fun u => u.id ≠ t.id),
      warnings := st.warnings ++ ["Session timeout"] }
    t.targetSessionId true t.fireAt llmService readLog s h
  have he : fireTimer st t llmService readLog = (completeSession
      { st with
        armedTimers := st.armedTimers.filter (fun u => u.id ≠ t.id),
        warnings := st.warnings ++ ["Session timeout"] }
      t.targetSessionId true t.fireAt llmService readLog).1 := by
    simp only [fireTimer, handleTimeout]
    simp [h, hact]
  refine ⟨?_, ?_, ?_, ?_⟩ <;> rw [getSession, he]
  · exact c1
  · exact c3
  · exact c2
  · exact c4

/-- C10: a second `createSession` under an already-present sessionId
silently overwrites the stored record (the stored `startTime` becomes the
second call's, with no warning logged) while the first call's timeout timer
stays armed; when that first timer fires, `handleTimeout` finds the new
record `'active'` and completes the *new* session with `isTimeout = true`
at `t0 + maxWaitTime` — strictly before the new session's own
`maxWaitTime` deadline `t1 + maxWaitTime`. -/
theorem duplicate_createSession_premature_timeout (sessionId m1 m2 : String)
    (rr1 rr2 : RoutingResult) (t0 t1 : Nat)
    (llmService : Option LlmService)
    (readLog : Except String (List LogEntry))
    (stA stB : SystemState) (oldTimer : TimerRec)
    (h01 : t0 < t1)
    (hA : stA = (createSession {} sessionId rr1 m1 t0).1)
    (hB : stB = (createSession stA sessionId rr2 m2 t1).1)
    (hT : oldTimer =
      TimerRec.mk (t0 + wechatyConfig.maxWaitTime) sessionId 0) :
    oldTimer ∈ stB.armedTimers ∧
    ((getSession stB sessionId).map Session.startTime = some t1) ∧
    stB.warnings = [] ∧
    ((getSession (fireTimer stB oldTimer llmService readLog)
      sessionId).map Session.status = some SessionStatus.completed) ∧
    ((getSession (fireTimer stB oldTimer llmService readLog)
      sessionId).map Session.isTimeout = some (some true)) ∧
    ((getSession (fireTimer stB oldTimer llmService readLog)
      sessionId).map Session.endTime =
      some (some (t0 + wechatyConfig.maxWaitTime))) ∧
    ((getSession (fireTimer stB oldTimer llmService readLog)
      sessionId).map Session.startTime = some t1) ∧
    t0 + wechatyConfig.maxWaitTime < t1 + wechatyConfig.maxWaitTime := by
  subst hA hB hT
  obtain ⟨hA1, hA2, hA3, hA4, hA5, hA6⟩ := createSession_spec {} sessionId
    rr1 m1 t0
  obtain ⟨hB1, hB2, hB3, hB4, hB5, hB6⟩ := createSession_spec
    (createSession {} sessionId rr1 m1 t0).1 sessionId rr2 m2 t1
  have hlookB : lookupA (createSession (createSession {} sessionId rr1 m1
      t0).1 sessionId rr2 m2 t1).1.sessions sessionId =
      some (createSession (createSession {} sessionId rr1 m1 t0).1 sessionId
        rr2 m2 t1).2 := by
    rw [hB1]
    exact lookupA_insertA_self _ _ _
  obtain ⟨f1, f2, f3, f4⟩ := fireTimer_completes
    (createSession (createSession {} sessionId rr1 m1 t0).1 sessionId rr2
      m2 t1).1
    (TimerRec.mk (t0 + wechatyConfig.maxWaitTime) sessionId 0)
    llmService readLog
    (createSession (createSession {} sessionId rr1 m1 t0).1 sessionId rr2
      m2 t1).2
    hlookB (by rw [hB2])
  refine ⟨?_, ?_, ?_, f1, f2, f3, ?_, ?_⟩
  · rw [hB3, hA3]
    simp
  · simp [getSession, hlookB, hB2]
  · rw [hB5, hA5]
  · rw [hB2] at f4
    simpa using f4
  · exact Nat.add_lt_add_right h01 wechatyConfig.maxWaitTime

/-- The duplicate-creation scenario at concrete times 100 and 200. -/
def exDup : SystemState :=
  (createSession (createSession {} "s1" exRouting "m1" 100).1 "s1"
    exRouting "m2" 200).1

/-- The first creation's timer, still armed inside `exDup`. -/
def exDupTimer : TimerRec :=
  TimerRec.mk (100 + wechatyConfig.maxWaitTime) "s1" 0

/-- C10 witness: the concrete duplicate-creation run. -/
theorem duplicate_createSession_premature_timeout_witness :
    exDupTimer ∈ exDup.armedTimers ∧
    ((getSession (fireTimer exDup exDupTimer none (Except.ok []))
      "s1").map Session.status = some SessionStatus.completed) ∧
    ((getSession (fireTimer exDup exDupTimer none (Except.ok []))
      "s1").map Session.isTimeout = some (some true)) ∧
    ((getSession (fireTimer exDup exDupTimer none (Except.ok []))
      "s1").map Session.endTime =
      some (some (100 + wechatyConfig.maxWaitTime))) := by
  obtain ⟨w1, -, -, w4, w5, w6, -, -⟩ :=
    duplicate_createSession_premature_timeout "s1" "m1" "m2" exRouting
      exRouting 100 200 none (Except.ok [])
      (createSession {} "s1" exRouting "m1" 100).1 exDup exDupTimer
      (by decide) rfl rfl rfl
  exact ⟨w1, w4, w5, w6⟩

end BackendServer
